import Mathlib

/-!
Verification development for the per-draw GL state resolver of
`src/vita3k/renderer/src/gl/sync_state.cpp` (namespace `renderer::gl`).

The two functions under study are `sync_texture` (texture/surface identity
resolution, swizzle reconciliation) and `sync_vertex_streams_and_attributes`
(vertex stream staging through the ring allocator plus attr layout
translation).  External collaborators that live outside this translation
unit (the gxm format helpers, the surface cache, the ring allocator, the
memory validator) are modelled as oracle parameters: the theorems quantify
over every possible behaviour of those collaborators.  Backend (OpenGL)
calls are modelled as an emitted event trace.
-/

namespace Vita3KGLSync

/-! ### OpenGL constants used by the source -/

def GL_ZERO : Nat := 0
def GL_ONE : Nat := 1
def GL_RED : Nat := 0x1903
def GL_GREEN : Nat := 0x1904
def GL_BLUE : Nat := 0x1905
def GL_ALPHA : Nat := 0x1906
def GL_INT : Nat := 0x1404
def GL_NEAREST : Nat := 0x2600
def GL_TEXTURE_SWIZZLE_R : Nat := 0x8E42
def GL_TEXTURE0 : Nat := 0x84C0

/-- Constant `SCE_GXM_MAX_TEXTURE_UNITS` from the SDK headers. -/
def SCE_GXM_MAX_TEXTURE_UNITS : Nat := 16

/-! ### Data model for `sync_texture` -/

/-- The texture storage layouts distinguished by the `switch (texture.texture_type())`
at lines 328-340 of the source.  `otherKind` collects every remaining
`SceGxmTextureType` (swizzled, cube, ...), for which the switch keeps
`stride_in_pixels = width` (no case matches). -/
inductive TextureStorage
  | linear
  | linearStrided
  | tiled
  | otherKind
deriving DecidableEq, Repr

/-- The fields of `SceGxmTexture` read directly by `sync_texture`.
`data_addr` is the raw bitfield; the effective address is `data_addr << 2`
(line 277).  Values derived through gxm helpers (`get_format`, `get_width`,
`get_stride_in_bytes`, ...) are obtained through the `GxmExternals` oracle. -/
structure SceGxmTexture where
  data_addr : Nat
  palette_addr : Nat
  texture_type : TextureStorage
deriving DecidableEq, Repr

/-- Texture base formats.  The only base format `sync_texture` compares
against a literal tag is `SCE_GXM_TEXTURE_BASE_FORMAT_X8U24` (line 373),
so the embedding singles it out; every other base format is an opaque code. -/
inductive BaseFormatCode
  | x8u24
  | code (n : Nat)
deriving DecidableEq, Repr

/-- A GL swizzle descriptor: the 4-entry `GLint` array returned by
`color::translate_swizzle` / `texture::translate_swizzle`.  Each entry is one
of `GL_ZERO`, `GL_ONE`, `GL_RED..GL_ALPHA` in practice, but the embedding
keeps plain naturals just as the source keeps plain `GLint`s. -/
structure Swizzle4 where
  r : Nat
  g : Nat
  b : Nat
  a : Nat
deriving DecidableEq, Repr

/-- Channel `i` of a swizzle descriptor (`swizzle[i]` in the source loops). -/
def Swizzle4.get (s : Swizzle4) (i : Nat) : Nat :=
  if i = 0 then s.r else if i = 1 then s.g else if i = 2 then s.b else s.a

/-- Oracle bundle for the gxm / renderer::texture / color helper functions that
`sync_texture` calls but that are defined outside this translation unit.
The theorems hold for every instantiation. -/
structure GxmExternals where
  texture_size : SceGxmTexture → Nat
  get_format : SceGxmTexture → Nat
  get_base_format : Nat → BaseFormatCode
  is_paletted_format : BaseFormatCode → Bool
  get_width : SceGxmTexture → Nat
  get_height : SceGxmTexture → Nat
  get_stride_in_bytes : SceGxmTexture → Nat
  bits_per_pixel : BaseFormatCode → Nat
  convert_base_texture_format_to_base_color_format : BaseFormatCode → Option Nat
  color_translate_swizzle : Nat → Option Swizzle4
  texture_translate_swizzle : Nat → Option Swizzle4
  is_write_surface_non_linearity_filtering : Nat → Bool

/-- Oracle for the surface cache (external component, queried only).
`retrieve_color_surface_texture_handle` returns the handle (0 = miss) and the
`swizz_raw` out-parameter; `retrieve_depth_stencil_texture_handle` returns the
handle (0 = miss) for a lookup keyed on the depth-data address. -/
structure SurfaceCacheOracle where
  retrieve_color_surface_texture_handle : Nat → Nat → Nat → Nat → Nat → Nat × Nat
  retrieve_depth_stencil_texture_handle : Nat → Nat → Nat → Nat

/-- The fields of the GL context / record consulted by `sync_texture`. -/
structure GLContextModel where
  color_surface_addr : Nat
  color_surface_colorFormat : Nat
  current_color_attachment : Nat
  self_sampling_indices : List Nat
deriving DecidableEq, Repr

/-- The configuration flags consulted by `sync_texture`. -/
structure ConfigModel where
  texture_cache : Bool
  dump_textures : Bool
deriving DecidableEq, Repr

/-- Backend/bookkeeping events emitted during one `sync_texture` call, in
program order.  `queryColorSurface`/`queryDepthStencil` record the surface
cache lookups, the rest record GL calls (and the texture-dump side effect). -/
inductive TexEvent
  | shaderHintVertex (slot fmt : Nat)
  | shaderHintFragment (slot fmt : Nat)
  | activeTexture (unit : Nat)
  | queryColorSurface (width height stride fmt addr : Nat)
  | queryDepthStencil (addr width height : Nat)
  | bindTexture (handle : Nat)
  | setMinFilter (v : Nat)
  | setMagFilter (v : Nat)
  | setSwizzleChannel (channel value : Nat)
  | setSwizzleRGBA (s : Swizzle4)
  | externalUploadCached
  | externalUploadDirect
  | dumpTexture
deriving DecidableEq, Repr

/-- Whether an event is a surface-cache lookup. -/
def TexEvent.isSurfaceCacheQuery : TexEvent → Bool
  | .queryColorSurface _ _ _ _ _ => true
  | .queryDepthStencil _ _ _ => true
  | _ => false

/-- Function `align(v, a)` from `util/align.h`: `(v + a - 1) & ~(a - 1)` for a
power-of-two `a` applied to non-negative values, i.e. `(v + a - 1)` with its
remainder mod `a` cleared. -/
def alignUp (v a : Nat) : Nat := (v + a - 1) - (v + a - 1) % a

/-- The `stride_in_pixels` computation of lines 326-340.  `width` is the
already-truncated `uint16_t` width; the `% 65536` account for the
`static_cast<std::uint16_t>` on `get_stride_in_bytes` and for the result being
stored back into the `uint16_t` local. -/
def stride_in_pixels_of (ext : GxmExternals) (texture : SceGxmTexture)
    (base_format : BaseFormatCode) (width : Nat) : Nat :=
  match texture.texture_type with
  | .linearStrided =>
      (ext.get_stride_in_bytes texture % 65536) / ((ext.bits_per_pixel base_format + 7) / 8)
  | .linear => alignUp width 8 % 65536
  | .tiled => alignUp width 32 % 65536
  | .otherKind => width

/-! ### Swizzle reconciliation (lines 376-399) -/

/-- The test `(swizzle[i] < GL_RED) || (swizzle[i] > GL_ALPHA)` of line 381:
the declared mapping is a fixed value, not one of the four color channels. -/
def swizzleValueFixed (v : Nat) : Bool := v < GL_RED || GL_ALPHA < v

/-- The inner `for (j...)` loop with `break` of lines 384-389: first position
of `v` in the surface swizzle, if any. -/
def firstMatchPos (ssurf : Swizzle4) (v : Nat) : Option Nat :=
  if ssurf.r == v then some 0
  else if ssurf.g == v then some 1
  else if ssurf.b == v then some 2
  else if ssurf.a == v then some 3
  else none

/-- Body of the per-output-channel loop of lines 380-391: the GL calls emitted
for output channel `i`. -/
def remapChannelEvents (swz ssurf : Swizzle4) (i : Nat) : List TexEvent :=
  let v := swz.get i
  if swizzleValueFixed v then
    [TexEvent.setSwizzleChannel (GL_TEXTURE_SWIZZLE_R + i) v]
  else
    match firstMatchPos ssurf v with
    | some j => [TexEvent.setSwizzleChannel (GL_TEXTURE_SWIZZLE_R + i) (GL_RED + j)]
    | none => []

/-- The `default_rgba` identity mapping of line 393. -/
def identitySwizzle : Swizzle4 := ⟨GL_RED, GL_GREEN, GL_BLUE, GL_ALPHA⟩

/-- Lines 377-399: reconcile the texture's declared swizzle `swz` with the
surface's native swizzle, when one is present.  `memcmp(...,16) != 0` on two
`GLint[4]` arrays is component-wise disequality. -/
def reconcileSwizzleEvents (swizzle_surface : Option Swizzle4) (swz : Swizzle4) :
    List TexEvent :=
  match swizzle_surface with
  | some ssurf =>
      if swz ≠ ssurf then
        (List.range 4).flatMap (remapChannelEvents swz ssurf)
      else
        [TexEvent.setSwizzleRGBA identitySwizzle]
  | none => [TexEvent.setSwizzleRGBA swz]

/-- Lines 365-408: the tail of `sync_texture` after `texture_as_surface`,
`swizzle_surface` and `only_nearest` have been determined. -/
def bindPhaseEvents (ext : GxmExternals) (cfg : ConfigModel)
    (base_format : BaseFormatCode) (format : Nat) (texture_as_surface : Nat)
    (swizzle_surface : Option Swizzle4) (only_nearest : Bool) : List TexEvent :=
  if texture_as_surface ≠ 0 then
    [TexEvent.bindTexture texture_as_surface]
    ++ (if only_nearest then
          [TexEvent.setMinFilter GL_NEAREST, TexEvent.setMagFilter GL_NEAREST]
        else [])
    ++ (if base_format ≠ BaseFormatCode.x8u24 then
          match ext.texture_translate_swizzle format with
          | some swz => reconcileSwizzleEvents swizzle_surface swz
          | none => []
        else [])
  else
    if cfg.texture_cache then [TexEvent.externalUploadCached]
    else [TexEvent.externalUploadDirect]

/-- Function `sync_texture` (lines 275-428).  Returns the updated context together with
the trace of cache lookups and backend calls.  The early returns of lines
280-283 and 287-290 yield an unchanged context and an empty trace. -/
def syncTexture (ext : GxmExternals) (cache : SurfaceCacheOracle)
    (is_valid_addr_range : Nat → Nat → Bool) (cfg : ConfigModel)
    (ctx : GLContextModel) (index : Nat) (texture : SceGxmTexture) :
    GLContextModel × List TexEvent :=
  let data_addr := texture.data_addr * 4
  let texture_size := ext.texture_size texture
  if !is_valid_addr_range data_addr (data_addr + texture_size) then
    (ctx, [])
  else
    let format := ext.get_format texture
    let base_format := ext.get_base_format format
    if ext.is_paletted_format base_format && texture.palette_addr == 0 then
      (ctx, [])
    else
      let ev_hint :=
        if SCE_GXM_MAX_TEXTURE_UNITS ≤ index then
          [TexEvent.shaderHintVertex (index - SCE_GXM_MAX_TEXTURE_UNITS) format]
        else
          [TexEvent.shaderHintFragment index format]
      let ev_active := [TexEvent.activeTexture (GL_TEXTURE0 + index)]
      let ssi :=
        if ctx.color_surface_addr == data_addr then
          if ctx.self_sampling_indices.contains index then ctx.self_sampling_indices
          else ctx.self_sampling_indices ++ [index]
        else ctx.self_sampling_indices.erase index
      let resolved : Nat × Option Swizzle4 × Bool × List TexEvent :=
        if ctx.color_surface_addr == data_addr then
          (ctx.current_color_attachment,
            ext.color_translate_swizzle ctx.color_surface_colorFormat, false, [])
        else
          let width := ext.get_width texture % 65536
          let height := ext.get_height texture % 65536
          let afterColor : Nat × Option Swizzle4 × Bool × List TexEvent :=
            match ext.convert_base_texture_format_to_base_color_format base_format with
            | some format_target =>
                let sp := stride_in_pixels_of ext texture base_format width
                let res := cache.retrieve_color_surface_texture_handle width height sp
                  format_target data_addr
                (res.1, ext.color_translate_swizzle (format_target ||| res.2),
                  ext.is_write_surface_non_linearity_filtering format_target,
                  [TexEvent.queryColorSurface width height sp format_target data_addr])
            | none => (0, none, false, [])
          let tas1 := afterColor.1
          let swsurf := afterColor.2.1
          let onear1 := afterColor.2.2.1
          let evq1 := afterColor.2.2.2
          if tas1 == 0 then
            let h := cache.retrieve_depth_stencil_texture_handle data_addr width height
            (h, swsurf, if h ≠ 0 then true else onear1,
              evq1 ++ [TexEvent.queryDepthStencil data_addr width height])
          else
            (tas1, swsurf, onear1, evq1)
      let texture_as_surface := resolved.1
      let swizzle_surface := resolved.2.1
      let only_nearest := resolved.2.2.1
      let ev_queries := resolved.2.2.2
      let ev_dump := if cfg.dump_textures then [TexEvent.dumpTexture] else []
      ({ ctx with self_sampling_indices := ssi },
        ev_hint ++ ev_active ++ ev_queries
          ++ bindPhaseEvents ext cfg base_format format texture_as_surface
              swizzle_surface only_nearest
          ++ ev_dump ++ [TexEvent.activeTexture GL_TEXTURE0])

/-! ### Data model for `sync_vertex_streams_and_attributes` -/

/-- The per-stream raw data slot of `GxmRecordState::vertex_streams[i]`:
the guest data pointer (`none` models a null `Ptr`) and the byte size.
Both are cleared by the staging loop once the stream has been considered. -/
structure GxmVertexStreamData where
  data : Option Nat
  size : Nat
deriving DecidableEq, Repr

/-- Events of the staging loop (lines 472-488): an allocator call, a
successful copy into the ring buffer at the returned offset, or the
`LOG_ERROR` path on allocation failure. -/
inductive StageEvent
  | ringAlloc (streamIndex size : Nat)
  | ringCopy (streamIndex size offset : Nat)
  | allocFailLog (streamIndex : Nat)
deriving DecidableEq, Repr

/-- The stream index an event refers to. -/
def StageEvent.streamIndex : StageEvent → Nat
  | .ringAlloc i _ => i
  | .ringCopy i _ _ => i
  | .allocFailLog i => i

/-- Extracts the stream index of an allocator-call event. -/
def StageEvent.allocIdx : StageEvent → Option Nat
  | .ringAlloc i _ => some i
  | _ => none

/-- The staging loop of lines 472-488, processing the streams from index `i`
upward.  Modelled from the spec: `vertex_stream_ring_buffer.allocate` is the
external ring allocator (its class is outside `src/`), represented by the
oracle `alloc`, indexed by the number of allocator calls made so far (`calls`);
`alloc c = none` models `allocate` returning a null write pointer, and
`alloc c = some off` a successful allocation at ring offset `off`.  `junk`
gives the indeterminate initial contents of the stack-local `offset_in_buffer`
array, whose entry is left unwritten when allocation fails.  Returns the
updated streams, the `offset_in_buffer` values and the event trace. -/
def stageStreamsAux (alloc : Nat → Option Nat) (junk : Nat → Nat) :
    Nat → Nat → List GxmVertexStreamData →
    List GxmVertexStreamData × List Nat × List StageEvent
  | _, _, [] => ([], [], [])
  | i, calls, s :: rest =>
    match s.data with
    | some _ =>
        let tail := stageStreamsAux alloc junk (i + 1) (calls + 1) rest
        match alloc calls with
        | none =>
            (⟨none, 0⟩ :: tail.1, junk i :: tail.2.1,
              StageEvent.ringAlloc i s.size :: StageEvent.allocFailLog i :: tail.2.2)
        | some off =>
            (⟨none, 0⟩ :: tail.1, off :: tail.2.1,
              StageEvent.ringAlloc i s.size :: StageEvent.ringCopy i s.size off :: tail.2.2)
    | none =>
        let tail := stageStreamsAux alloc junk (i + 1) calls rest
        (s :: tail.1, 0 :: tail.2.1, tail.2.2)

/-- The staging loop starting at stream 0 with a fresh allocator call count. -/
def stageStreams (alloc : Nat → Option Nat) (junk : Nat → Nat)
    (streams : List GxmVertexStreamData) :
    List GxmVertexStreamData × List Nat × List StageEvent :=
  stageStreamsAux alloc junk 0 0 streams

/-- The indices of the streams that carry pending data (`data` non-null),
in increasing order. -/
def pendingIndices : List GxmVertexStreamData → List Nat
  | [] => []
  | s :: rest =>
      if s.data.isSome then 0 :: (pendingIndices rest).map (· + 1)
      else (pendingIndices rest).map (· + 1)

/-! ### Attribute layout translation (lines 490-559) -/

/-- The `SceGxmParameterType` values distinguished by the `switch` of lines
527-538; every other type falls to the `default` branch. -/
inductive SceGxmParameterType
  | u8 | s8 | u16 | s16 | u32 | s32 | f16 | f32
  | otherType (n : Nat)
deriving DecidableEq, Repr

/-- The integral-upload test of lines 527-538. -/
def isIntegerParamType : SceGxmParameterType → Bool
  | .u8 | .s8 | .u16 | .s16 | .u32 | .s32 => true
  | _ => false

/-- The `SceGxmAttributeFormat` enumeration. -/
inductive SceGxmAttributeFormat
  | u8 | s8 | u16 | s16
  | u8n | s8n | u16n | s16n
  | f16 | f32
  | untyped
deriving DecidableEq, Repr

/-- Modelled from the spec: `gxm::attribute_format_size` (component byte
size of one attr component) is defined outside `src/`; the spec calls
it `componentByteSize`. -/
def attribute_format_size : SceGxmAttributeFormat → Nat
  | .u8 | .s8 | .u8n | .s8n => 1
  | .u16 | .s16 | .u16n | .s16n | .f16 => 2
  | .f32 | .untyped => 4

/-- The fields of `shader::usse::AttributeInformation` consumed by the
attr loop: the host location, the analysed parameter type, and the
register-format (raw bit-packed) flag. -/
structure AttributeInformationModel where
  location : Nat
  gxm_type : SceGxmParameterType
  regformat : Bool
deriving DecidableEq, Repr

/-- Structure `SceGxmVertexStream` as read by the attr loop (from
`vertex_program.streams`): the element stride and the index-source kind. -/
structure SceGxmVertexStream where
  stride : Nat
  indexSource : Nat
deriving DecidableEq, Repr

/-- The `SceGxmVertexAttribute` fields read by the attr loop. -/
structure SceGxmVertexAttribute where
  streamIndex : Nat
  offset : Nat
  format : SceGxmAttributeFormat
  componentCount : Nat
  regIndex : Nat
deriving DecidableEq, Repr

/-- Oracle bundle for the gxm helpers called by the attr loop but
defined outside this translation unit. -/
structure AttrExternals where
  attribute_format_to_gl_type : SceGxmAttributeFormat → Nat
  attribute_format_normalised : SceGxmAttributeFormat → Bool
  is_stream_instancing : Nat → Bool

/-- Backend calls emitted by the attr loop.  `pointer` covers both
`glVertexAttribIPointer` (`integral = true`, `normalised` forced false) and
`glVertexAttribPointer` (`integral = false`). -/
inductive AttrEvent
  | bindArrayBuffer (handle : Nat)
  | pointer (location compCount glType : Nat) (integral normalised : Bool)
      (stride offset : Nat)
  | enable (location : Nat)
  | divisor (location rate : Nat)
deriving DecidableEq, Repr

/-- The layout decision of lines 508-539: array size, per-element byte size,
component count, GL type and integral-upload flag for one attr. -/
structure AttrLayout where
  array_size : Nat
  array_element_size : Nat
  component_count : Nat
  gl_type : Nat
  upload_integral : Bool
deriving DecidableEq, Repr

/-- Lines 508-539.  For a register-formatted attr the effective component
count is `(comp_size * componentCount + 3) / 4`; above 4 components the
attr is packed as an array of 4-wide int vectors with a 16-byte
(`4 * sizeof(int32_t)`) element size. -/
def computeAttrLayout (aext : AttrExternals) (attr : SceGxmVertexAttribute)
    (info : AttributeInformationModel) : AttrLayout :=
  if info.regformat then
    let comp_size := attribute_format_size attr.format
    let cc := (comp_size * attr.componentCount + 3) / 4
    if 4 < cc then
      { array_size := (cc + 3) / 4, array_element_size := 4 * 4,
        component_count := 4, gl_type := GL_INT, upload_integral := true }
    else
      { array_size := 1, array_element_size := 0, component_count := cc,
        gl_type := GL_INT, upload_integral := true }
  else
    { array_size := 1, array_element_size := 0,
      component_count := attr.componentCount,
      gl_type := aext.attribute_format_to_gl_type attr.format,
      upload_integral := isIntegerParamType info.gxm_type }

/-- The loop body of lines 492-557 for a single attr: looks up the
attr's register index in `attribute_infos` (skipping the attr when
absent, line 493), then emits the pointer/enable/divisor calls for each bound
location. -/
def attributeCalls (aext : AttrExternals)
    (attribute_infos : List (Nat × AttributeInformationModel))
    (streams : List SceGxmVertexStream) (offset_in_buffer : List Nat)
    (attr : SceGxmVertexAttribute) : List AttrEvent :=
  match attribute_infos.lookup attr.regIndex with
  | none => []
  | some info =>
      let stream := (streams.get? attr.streamIndex).getD ⟨0, 0⟩
      let lay := computeAttrLayout aext attr info
      let normalised := aext.attribute_format_normalised attr.format
      let integral := lay.upload_integral
        || (attr.format == SceGxmAttributeFormat.untyped)
      let offbase := (offset_in_buffer.get? attr.streamIndex).getD 0
      let rate := if aext.is_stream_instancing stream.indexSource then 1 else 0
      (List.range lay.array_size).flatMap fun i =>
        [AttrEvent.pointer (info.location + i) lay.component_count lay.gl_type
            integral (if integral then false else normalised) stream.stride
            (i * lay.array_element_size + attr.offset + offbase),
          AttrEvent.enable (info.location + i),
          AttrEvent.divisor (info.location + i) rate]

/-- The `GLVertexProgram` state consulted by the function: the stripped-symbols
flag and the `attribute_infos` map (modelled as a lookup list; `std::map`
iteration order is irrelevant here since the map is only queried). -/
structure GLVertexProgramModel where
  stripped_symbols_checked : Bool
  attribute_infos : List (Nat × AttributeInformationModel)
deriving DecidableEq, Repr

/-- The `SceGxmVertexProgram` fields consulted: the attr and stream arrays,
plus whether the program body pointer is non-null and its
`primary_reg_count`. -/
structure SceGxmVertexProgramModel where
  attributes : List SceGxmVertexAttribute
  streams : List SceGxmVertexStream
  body_present : Bool
  primary_reg_count : Nat
deriving DecidableEq, Repr

/-- Behaviour of `std::map::emplace`: inserts only when the key is absent. -/
def emplaceInfo (m : List (Nat × AttributeInformationModel)) (k : Nat)
    (v : AttributeInformationModel) : List (Nat × AttributeInformationModel) :=
  if (m.lookup k).isSome then m else m ++ [(k, v)]

/-- The stripped-symbols preamble of lines 458-468: on the first call, when
the program body exists and has a non-zero `primary_reg_count`, each
attr's register index is given a fallback `AttributeInformation`
(location `i`, type F32, not regformat). -/
def stripSymbolsPass (vp : SceGxmVertexProgramModel) (gv : GLVertexProgramModel) :
    GLVertexProgramModel :=
  if gv.stripped_symbols_checked then gv
  else
    let infos :=
      if vp.body_present && vp.primary_reg_count != 0 then
        (List.range vp.attributes.length).foldl
          (fun m i =>
            emplaceInfo m ((vp.attributes.get? i).getD ⟨0, 0, .f32, 0, 0⟩).regIndex
              ⟨i, .f32, false⟩)
          gv.attribute_infos
      else gv.attribute_infos
    { stripped_symbols_checked := true, attribute_infos := infos }

/-- Function `sync_vertex_streams_and_attributes` (lines 453-560): the stripped-symbols
preamble, the staging loop, then the attr loop bracketed by the
`glBindBuffer` calls.  `ring_handle` is the GL name of the ring buffer's
backing buffer (`vertex_stream_ring_buffer.handle()`, external). -/
def sync_vertex_streams_and_attributes (aext : AttrExternals)
    (alloc : Nat → Option Nat) (junk : Nat → Nat) (ring_handle : Nat)
    (vp : SceGxmVertexProgramModel) (gv : GLVertexProgramModel)
    (streamsData : List GxmVertexStreamData) :
    GLVertexProgramModel × List GxmVertexStreamData × List StageEvent × List AttrEvent :=
  let gv2 := stripSymbolsPass vp gv
  let staged := stageStreams alloc junk streamsData
  let aevs := vp.attributes.flatMap
    (attributeCalls aext gv2.attribute_infos vp.streams staged.2.1)
  (gv2, staged.1, staged.2.2,
    AttrEvent.bindArrayBuffer ring_handle :: aevs ++ [AttrEvent.bindArrayBuffer 0])

/-! ### Helper lemmas -/

lemma remapChannelEvents_no_query {swz ssurf : Swizzle4} {i : Nat} {e : TexEvent}
    (h : e ∈ remapChannelEvents swz ssurf i) : e.isSurfaceCacheQuery = false := by
  dsimp only [remapChannelEvents] at h
  split at h
  · simp only [List.mem_singleton] at h
    subst h; rfl
  · split at h
    · simp only [List.mem_singleton] at h
      subst h; rfl
    · simp at h

lemma reconcileSwizzleEvents_no_query {ss : Option Swizzle4} {swz : Swizzle4} {e : TexEvent}
    (h : e ∈ reconcileSwizzleEvents ss swz) : e.isSurfaceCacheQuery = false := by
  rcases ss with _ | ssurf
  · dsimp only [reconcileSwizzleEvents] at h
    simp only [List.mem_singleton] at h
    subst h; rfl
  · dsimp only [reconcileSwizzleEvents] at h
    by_cases hne : swz ≠ ssurf
    · rw [if_pos hne] at h
      rcases List.mem_flatMap.mp h with ⟨i, _, hmem⟩
      exact remapChannelEvents_no_query hmem
    · rw [if_neg hne] at h
      simp only [List.mem_singleton] at h
      subst h; rfl

lemma bindPhaseEvents_no_query {ext : GxmExternals} {cfg : ConfigModel}
    {bf : BaseFormatCode} {fmt tas : Nat} {ss : Option Swizzle4} {onear : Bool}
    {e : TexEvent} (h : e ∈ bindPhaseEvents ext cfg bf fmt tas ss onear) :
    e.isSurfaceCacheQuery = false := by
  dsimp only [bindPhaseEvents] at h
  by_cases ht : tas ≠ 0
  · rw [if_pos ht] at h
    simp only [List.mem_append, List.mem_singleton] at h
    rcases h with (rfl | h) | h
    · rfl
    · by_cases ho : onear = true
      · rw [if_pos ho] at h
        simp only [List.mem_cons, List.not_mem_nil, or_false] at h
        rcases h with rfl | rfl <;> rfl
      · rw [if_neg ho] at h
        simp at h
    · by_cases hbf : bf ≠ BaseFormatCode.x8u24
      · rw [if_pos hbf] at h
        rcases hsw : ext.texture_translate_swizzle fmt with _ | swz <;> rw [hsw] at h
        · simp at h
        · exact reconcileSwizzleEvents_no_query h
      · rw [if_neg hbf] at h
        simp at h
  · rw [if_neg ht] at h
    by_cases hc : cfg.texture_cache = true <;>
      [rw [if_pos hc] at h; rw [if_neg hc] at h] <;>
      (simp only [List.mem_singleton] at h; subst h; rfl)

/-! ### Claim theorems: `sync_texture` -/

/-- Claim C7: for every texture descriptor whose backing address range is
invalid, and for every paletted-format descriptor with a null palette
address, `sync_texture` aborts before issuing any backend call (empty event
trace) leaving the context, and in particular the unit's previous binding,
untouched. -/
theorem syncTexture_abort_leaves_state (ext : GxmExternals) (cache : SurfaceCacheOracle)
    (valid : Nat → Nat → Bool) (cfg : ConfigModel) (ctx : GLContextModel)
    (index : Nat) (texture : SceGxmTexture)
    (h : valid (texture.data_addr * 4) (texture.data_addr * 4 + ext.texture_size texture) = false
      ∨ (ext.is_paletted_format (ext.get_base_format (ext.get_format texture)) = true
          ∧ texture.palette_addr = 0)) :
    syncTexture ext cache valid cfg ctx index texture = (ctx, []) := by
  unfold syncTexture
  rcases h with h | ⟨h1, h2⟩
  · simp [h]
  · rcases hv : valid (texture.data_addr * 4)
        (texture.data_addr * 4 + ext.texture_size texture) with _ | _
    · simp [hv]
    · simp [hv, h1, h2]

/-- Witness for C7 at a concrete input. -/
theorem syncTexture_abort_leaves_state_witness :
    syncTexture
      { texture_size := fun _ => 8, get_format := fun _ => 0,
        get_base_format := fun _ => .code 0, is_paletted_format := fun _ => false,
        get_width := fun _ => 4, get_height := fun _ => 4,
        get_stride_in_bytes := fun _ => 16, bits_per_pixel := fun _ => 32,
        convert_base_texture_format_to_base_color_format := fun _ => none,
        color_translate_swizzle := fun _ => none,
        texture_translate_swizzle := fun _ => none,
        is_write_surface_non_linearity_filtering := fun _ => false }
      { retrieve_color_surface_texture_handle := fun _ _ _ _ _ => (0, 0),
        retrieve_depth_stencil_texture_handle := fun _ _ _ => 0 }
      (fun _ _ => false) ⟨false, false⟩ ⟨0, 0, 1, [3]⟩ 0 ⟨25, 0, .linear⟩
      = (⟨0, 0, 1, [3]⟩, []) :=
  syncTexture_abort_leaves_state _ _ _ _ _ _ _ (Or.inl rfl)

/-- Claim C1: when the descriptor's data address equals the active color
surface's address (and the early validation passes, with a live attachment
handle), `sync_texture` binds the current color attachment's handle directly,
appends the unit index to the self-sampling set only if absent, and performs
no surface-cache lookup. -/
theorem syncTexture_self_sample_binds (ext : GxmExternals) (cache : SurfaceCacheOracle)
    (valid : Nat → Nat → Bool) (cfg : ConfigModel) (ctx : GLContextModel)
    (index : Nat) (texture : SceGxmTexture)
    (hvalid : valid (texture.data_addr * 4)
        (texture.data_addr * 4 + ext.texture_size texture) = true)
    (hpal : (ext.is_paletted_format (ext.get_base_format (ext.get_format texture))
        && (texture.palette_addr == 0)) = false)
    (haddr : ctx.color_surface_addr = texture.data_addr * 4)
    (hatt : ctx.current_color_attachment ≠ 0) :
    TexEvent.bindTexture ctx.current_color_attachment
        ∈ (syncTexture ext cache valid cfg ctx index texture).2
    ∧ (∀ e ∈ (syncTexture ext cache valid cfg ctx index texture).2,
        e.isSurfaceCacheQuery = false)
    ∧ (syncTexture ext cache valid cfg ctx index texture).1.self_sampling_indices
        = (if index ∈ ctx.self_sampling_indices then ctx.self_sampling_indices
            else ctx.self_sampling_indices ++ [index]) := by
  unfold syncTexture
  simp only [hvalid, Bool.not_true, Bool.false_eq_true, if_false, hpal, haddr,
    beq_self_eq_true, if_true]
  refine ⟨?_, ?_, ?_⟩
  · simp [bindPhaseEvents, hatt]
  · intro e he
    simp only [List.mem_append, List.mem_singleton, List.not_mem_nil, or_false,
      false_or, or_assoc] at he
    rcases he with he | rfl | he | he | rfl
    · split at he <;> (simp only [List.mem_singleton] at he; subst he; rfl)
    · rfl
    · exact bindPhaseEvents_no_query he
    · split at he
      · simp only [List.mem_singleton] at he; subst he; rfl
      · simp at he
    · rfl
  · by_cases hmem : index ∈ ctx.self_sampling_indices <;>
      simp [hmem, List.contains, List.elem_eq_mem]

/-- Witness for C1 at a concrete input (unit 2 sampling the color surface at
address 100, attachment handle 7). -/
theorem syncTexture_self_sample_binds_witness :
    TexEvent.bindTexture 7
        ∈ (syncTexture
            { texture_size := fun _ => 8, get_format := fun _ => 0,
              get_base_format := fun _ => .code 0, is_paletted_format := fun _ => false,
              get_width := fun _ => 4, get_height := fun _ => 4,
              get_stride_in_bytes := fun _ => 16, bits_per_pixel := fun _ => 32,
              convert_base_texture_format_to_base_color_format := fun _ => none,
              color_translate_swizzle := fun _ => none,
              texture_translate_swizzle := fun _ => none,
              is_write_surface_non_linearity_filtering := fun _ => false }
            { retrieve_color_surface_texture_handle := fun _ _ _ _ _ => (0, 0),
              retrieve_depth_stencil_texture_handle := fun _ _ _ => 0 }
            (fun _ _ => true) ⟨false, false⟩ ⟨100, 0, 7, []⟩ 2 ⟨25, 0, .linear⟩).2
    ∧ (∀ e ∈ (syncTexture
            { texture_size := fun _ => 8, get_format := fun _ => 0,
              get_base_format := fun _ => .code 0, is_paletted_format := fun _ => false,
              get_width := fun _ => 4, get_height := fun _ => 4,
              get_stride_in_bytes := fun _ => 16, bits_per_pixel := fun _ => 32,
              convert_base_texture_format_to_base_color_format := fun _ => none,
              color_translate_swizzle := fun _ => none,
              texture_translate_swizzle := fun _ => none,
              is_write_surface_non_linearity_filtering := fun _ => false }
            { retrieve_color_surface_texture_handle := fun _ _ _ _ _ => (0, 0),
              retrieve_depth_stencil_texture_handle := fun _ _ _ => 0 }
            (fun _ _ => true) ⟨false, false⟩ ⟨100, 0, 7, []⟩ 2 ⟨25, 0, .linear⟩).2,
        e.isSurfaceCacheQuery = false)
    ∧ (syncTexture
            { texture_size := fun _ => 8, get_format := fun _ => 0,
              get_base_format := fun _ => .code 0, is_paletted_format := fun _ => false,
              get_width := fun _ => 4, get_height := fun _ => 4,
              get_stride_in_bytes := fun _ => 16, bits_per_pixel := fun _ => 32,
              convert_base_texture_format_to_base_color_format := fun _ => none,
              color_translate_swizzle := fun _ => none,
              texture_translate_swizzle := fun _ => none,
              is_write_surface_non_linearity_filtering := fun _ => false }
            { retrieve_color_surface_texture_handle := fun _ _ _ _ _ => (0, 0),
              retrieve_depth_stencil_texture_handle := fun _ _ _ => 0 }
            (fun _ _ => true) ⟨false, false⟩ ⟨100, 0, 7, []⟩ 2 ⟨25, 0, .linear⟩).1.self_sampling_indices
        = (if 2 ∈ ([] : List Nat) then ([] : List Nat) else [] ++ [2]) :=
  syncTexture_self_sample_binds _ _ _ _ _ _ _ rfl rfl rfl (by decide)

/-- Claim C2 (amended): after a texture unit resolution that passes the
address-range and palette validation, the self-sampling set contains the
resolved unit iff the texture's address equals the live color surface's
address (given a duplicate-free set, as maintained by the insert-if-absent
discipline); a resolution that aborts early on validation leaves the set
unchanged, so it may keep a unit whose texture address no longer matches. -/
theorem syncTexture_selfSampling_set (ext : GxmExternals) (cache : SurfaceCacheOracle)
    (valid : Nat → Nat → Bool) (cfg : ConfigModel) (ctx : GLContextModel)
    (index : Nat) (texture : SceGxmTexture)
    (hnodup : ctx.self_sampling_indices.Nodup) :
    (valid (texture.data_addr * 4) (texture.data_addr * 4 + ext.texture_size texture) = true →
      (ext.is_paletted_format (ext.get_base_format (ext.get_format texture))
          && (texture.palette_addr == 0)) = false →
      (index ∈ (syncTexture ext cache valid cfg ctx index texture).1.self_sampling_indices
        ↔ ctx.color_surface_addr = texture.data_addr * 4))
    ∧ (valid (texture.data_addr * 4) (texture.data_addr * 4 + ext.texture_size texture) = false
        ∨ (ext.is_paletted_format (ext.get_base_format (ext.get_format texture))
            && (texture.palette_addr == 0)) = true →
      (syncTexture ext cache valid cfg ctx index texture).1 = ctx) := by
  constructor
  · intro hvalid hpal
    unfold syncTexture
    simp only [hvalid, Bool.not_true, Bool.false_eq_true, if_false, hpal]
    by_cases haddr : ctx.color_surface_addr = texture.data_addr * 4
    · simp only [haddr, beq_self_eq_true, if_true]
      by_cases hmem : index ∈ ctx.self_sampling_indices <;>
        simp [hmem, List.contains, List.elem_eq_mem, haddr]
    · have hbeq : (ctx.color_surface_addr == texture.data_addr * 4) = false :=
        beq_eq_false_iff_ne.mpr haddr
      simp only [hbeq, Bool.false_eq_true, if_false]
      simp [hnodup.mem_erase_iff, haddr]
  · intro h
    unfold syncTexture
    rcases h with h | h
    · simp [h]
    · rcases hv : valid (texture.data_addr * 4)
          (texture.data_addr * 4 + ext.texture_size texture) with _ | _
      · simp [hv]
      · simp [hv, h]

/-- Witness for C2 (amended) at a concrete input: unit 0 with a matching
address enters the set; with `valid` rejecting everything the state is kept. -/
theorem syncTexture_selfSampling_set_witness :
    (0 ∈ (syncTexture
        { texture_size := fun _ => 8, get_format := fun _ => 0,
          get_base_format := fun _ => .code 0, is_paletted_format := fun _ => false,
          get_width := fun _ => 4, get_height := fun _ => 4,
          get_stride_in_bytes := fun _ => 16, bits_per_pixel := fun _ => 32,
          convert_base_texture_format_to_base_color_format := fun _ => none,
          color_translate_swizzle := fun _ => none,
          texture_translate_swizzle := fun _ => none,
          is_write_surface_non_linearity_filtering := fun _ => false }
        { retrieve_color_surface_texture_handle := fun _ _ _ _ _ => (0, 0),
          retrieve_depth_stencil_texture_handle := fun _ _ _ => 0 }
        (fun _ _ => true) ⟨false, false⟩ ⟨100, 0, 7, []⟩ 0 ⟨25, 0, .linear⟩).1.self_sampling_indices
      ↔ (100 : Nat) = 25 * 4) :=
  (syncTexture_selfSampling_set _ _ _ _ _ _ _ List.nodup_nil).1 rfl rfl

/-- Counterexample refuting C2 as stated: a unit left in the self-sampling
set by an earlier draw stays there when the resolution for its new texture
aborts early on an invalid address range, even though the texture's address
(100) no longer equals the color surface's address (0). -/
theorem syncTexture_selfSampling_stale_counterexample :
    (syncTexture
        { texture_size := fun _ => 8, get_format := fun _ => 0,
          get_base_format := fun _ => .code 0, is_paletted_format := fun _ => false,
          get_width := fun _ => 4, get_height := fun _ => 4,
          get_stride_in_bytes := fun _ => 16, bits_per_pixel := fun _ => 32,
          convert_base_texture_format_to_base_color_format := fun _ => none,
          color_translate_swizzle := fun _ => none,
          texture_translate_swizzle := fun _ => none,
          is_write_surface_non_linearity_filtering := fun _ => false }
        { retrieve_color_surface_texture_handle := fun _ _ _ _ _ => (0, 0),
          retrieve_depth_stencil_texture_handle := fun _ _ _ => 0 }
        (fun _ _ => false) ⟨false, false⟩ ⟨0, 0, 7, [0]⟩ 0 ⟨25, 0, .linear⟩).1.self_sampling_indices
      = [0]
    ∧ (25 * 4 : Nat) ≠ 0 := by
  constructor
  · rfl
  · decide

/-- Bytes per pixel of a base format, as the source computes it:
`(bits_per_pixel + 7) >> 3`. -/
def bytes_per_pixel (ext : GxmExternals) (bf : BaseFormatCode) : Nat :=
  (ext.bits_per_pixel bf + 7) / 8

/-- Claim C6: the effective row stride in pixels used for the
cached-surface-alias lookup is: stride bytes divided by bytes-per-pixel for
linear-strided textures, the width rounded up to a multiple of 8 for linear
textures, and the width rounded up to a multiple of 32 for tiled textures.
The width/stride bounds discharge the `uint16_t` truncations, which cannot
overflow for real gxm textures (widths are at most 4096). -/
theorem syncTexture_lookup_stride (ext : GxmExternals) (cache : SurfaceCacheOracle)
    (valid : Nat → Nat → Bool) (cfg : ConfigModel) (ctx : GLContextModel)
    (index : Nat) (texture : SceGxmTexture) (fmtT : Nat)
    (hvalid : valid (texture.data_addr * 4)
        (texture.data_addr * 4 + ext.texture_size texture) = true)
    (hpal : (ext.is_paletted_format (ext.get_base_format (ext.get_format texture))
        && (texture.palette_addr == 0)) = false)
    (haddr : ctx.color_surface_addr ≠ texture.data_addr * 4)
    (hconv : ext.convert_base_texture_format_to_base_color_format
        (ext.get_base_format (ext.get_format texture)) = some fmtT)
    (hw : ext.get_width texture ≤ 65504)
    (hsb : ext.get_stride_in_bytes texture < 65536) :
    TexEvent.queryColorSurface (ext.get_width texture) (ext.get_height texture % 65536)
        (stride_in_pixels_of ext texture (ext.get_base_format (ext.get_format texture))
          (ext.get_width texture))
        fmtT (texture.data_addr * 4)
      ∈ (syncTexture ext cache valid cfg ctx index texture).2
    ∧ (texture.texture_type = .linearStrided →
        stride_in_pixels_of ext texture (ext.get_base_format (ext.get_format texture))
            (ext.get_width texture)
          = ext.get_stride_in_bytes texture
              / bytes_per_pixel ext (ext.get_base_format (ext.get_format texture)))
    ∧ (texture.texture_type = .linear →
        stride_in_pixels_of ext texture (ext.get_base_format (ext.get_format texture))
            (ext.get_width texture)
          = 8 * ((ext.get_width texture + 7) / 8))
    ∧ (texture.texture_type = .tiled →
        stride_in_pixels_of ext texture (ext.get_base_format (ext.get_format texture))
            (ext.get_width texture)
          = 32 * ((ext.get_width texture + 31) / 32)) := by
  have hw' : ext.get_width texture % 65536 = ext.get_width texture :=
    Nat.mod_eq_of_lt (by omega)
  refine ⟨?_, ?_, ?_, ?_⟩
  · unfold syncTexture
    have hbeq : (ctx.color_surface_addr == texture.data_addr * 4) = false :=
      beq_eq_false_iff_ne.mpr haddr
    simp only [hvalid, Bool.not_true, Bool.false_eq_true, if_false, hpal, hbeq, hconv, hw']
    by_cases hz : (cache.retrieve_color_surface_texture_handle (ext.get_width texture)
        (ext.get_height texture % 65536)
        (stride_in_pixels_of ext texture (ext.get_base_format (ext.get_format texture))
          (ext.get_width texture)) fmtT (texture.data_addr * 4)).1 = 0 <;>
      simp [hz]
  · intro htype
    simp [stride_in_pixels_of, htype, bytes_per_pixel, Nat.mod_eq_of_lt hsb]
  · intro htype
    simp only [stride_in_pixels_of, htype, alignUp]
    omega
  · intro htype
    simp only [stride_in_pixels_of, htype, alignUp]
    omega

/-- Witness for C6 at a concrete input: a tiled 100-wide texture queried with
stride 128. -/
theorem syncTexture_lookup_stride_witness :
    TexEvent.queryColorSurface 100 50
        (stride_in_pixels_of
          { texture_size := fun _ => 8, get_format := fun _ => 0,
            get_base_format := fun _ => .code 0, is_paletted_format := fun _ => false,
            get_width := fun _ => 100, get_height := fun _ => 50,
            get_stride_in_bytes := fun _ => 400, bits_per_pixel := fun _ => 32,
            convert_base_texture_format_to_base_color_format := fun _ => some 6,
            color_translate_swizzle := fun _ => none,
            texture_translate_swizzle := fun _ => none,
            is_write_surface_non_linearity_filtering := fun _ => false }
          ⟨25, 0, .tiled⟩ (.code 0) 100)
        6 100
      ∈ (syncTexture
          { texture_size := fun _ => 8, get_format := fun _ => 0,
            get_base_format := fun _ => .code 0, is_paletted_format := fun _ => false,
            get_width := fun _ => 100, get_height := fun _ => 50,
            get_stride_in_bytes := fun _ => 400, bits_per_pixel := fun _ => 32,
            convert_base_texture_format_to_base_color_format := fun _ => some 6,
            color_translate_swizzle := fun _ => none,
            texture_translate_swizzle := fun _ => none,
            is_write_surface_non_linearity_filtering := fun _ => false }
          { retrieve_color_surface_texture_handle := fun _ _ _ _ _ => (0, 0),
            retrieve_depth_stencil_texture_handle := fun _ _ _ => 0 }
          (fun _ _ => true) ⟨false, false⟩ ⟨0, 0, 7, []⟩ 1 ⟨25, 0, .tiled⟩).2
    ∧ stride_in_pixels_of
        { texture_size := fun _ => 8, get_format := fun _ => 0,
          get_base_format := fun _ => .code 0, is_paletted_format := fun _ => false,
          get_width := fun _ => 100, get_height := fun _ => 50,
          get_stride_in_bytes := fun _ => 400, bits_per_pixel := fun _ => 32,
          convert_base_texture_format_to_base_color_format := fun _ => some 6,
          color_translate_swizzle := fun _ => none,
          texture_translate_swizzle := fun _ => none,
          is_write_surface_non_linearity_filtering := fun _ => false }
        ⟨25, 0, .tiled⟩ (.code 0) 100
      = 32 * ((100 + 31) / 32) :=
  by
  have h := syncTexture_lookup_stride
    { texture_size := fun _ => 8, get_format := fun _ => 0,
      get_base_format := fun _ => .code 0, is_paletted_format := fun _ => false,
      get_width := fun _ => 100, get_height := fun _ => 50,
      get_stride_in_bytes := fun _ => 400, bits_per_pixel := fun _ => 32,
      convert_base_texture_format_to_base_color_format := fun _ => some 6,
      color_translate_swizzle := fun _ => none,
      texture_translate_swizzle := fun _ => none,
      is_write_surface_non_linearity_filtering := fun _ => false }
    { retrieve_color_surface_texture_handle := fun _ _ _ _ _ => (0, 0),
      retrieve_depth_stencil_texture_handle := fun _ _ _ => 0 }
    (fun _ _ => true) ⟨false, false⟩ ⟨0, 0, 7, []⟩ 1 ⟨25, 0, .tiled⟩ 6
    rfl rfl (by decide) rfl (by decide) (by decide)
  exact ⟨h.1, h.2.2.2 rfl⟩

/-- Claim C8: when the color-surface lookup misses and the depth-stencil
lookup succeeds, the resolver binds the depth-stencil handle and forces
nearest-neighbor min and mag filtering (the texture's own filter setting is
never even consulted on this path: the model takes no filter input). -/
theorem syncTexture_depth_stencil_nearest (ext : GxmExternals) (cache : SurfaceCacheOracle)
    (valid : Nat → Nat → Bool) (cfg : ConfigModel) (ctx : GLContextModel)
    (index : Nat) (texture : SceGxmTexture) (fmtT : Nat)
    (hvalid : valid (texture.data_addr * 4)
        (texture.data_addr * 4 + ext.texture_size texture) = true)
    (hpal : (ext.is_paletted_format (ext.get_base_format (ext.get_format texture))
        && (texture.palette_addr == 0)) = false)
    (haddr : ctx.color_surface_addr ≠ texture.data_addr * 4)
    (hconv : ext.convert_base_texture_format_to_base_color_format
        (ext.get_base_format (ext.get_format texture)) = some fmtT)
    (hmiss : (cache.retrieve_color_surface_texture_handle (ext.get_width texture % 65536)
        (ext.get_height texture % 65536)
        (stride_in_pixels_of ext texture (ext.get_base_format (ext.get_format texture))
          (ext.get_width texture % 65536)) fmtT (texture.data_addr * 4)).1 = 0)
    (hds : cache.retrieve_depth_stencil_texture_handle (texture.data_addr * 4)
        (ext.get_width texture % 65536) (ext.get_height texture % 65536) ≠ 0) :
    TexEvent.setMinFilter GL_NEAREST ∈ (syncTexture ext cache valid cfg ctx index texture).2
    ∧ TexEvent.setMagFilter GL_NEAREST ∈ (syncTexture ext cache valid cfg ctx index texture).2
    ∧ TexEvent.bindTexture (cache.retrieve_depth_stencil_texture_handle
          (texture.data_addr * 4) (ext.get_width texture % 65536)
          (ext.get_height texture % 65536))
        ∈ (syncTexture ext cache valid cfg ctx index texture).2 := by
  have hbeq : (ctx.color_surface_addr == texture.data_addr * 4) = false :=
    beq_eq_false_iff_ne.mpr haddr
  unfold syncTexture
  simp only [hvalid, Bool.not_true, Bool.false_eq_true, if_false, hpal, hbeq, hconv, hmiss]
  refine ⟨?_, ?_, ?_⟩ <;> simp [bindPhaseEvents, hds]

/-- Witness for C8 at a concrete input: depth-stencil handle 9 found at
address 100. -/
theorem syncTexture_depth_stencil_nearest_witness :
    TexEvent.setMinFilter GL_NEAREST
      ∈ (syncTexture
          { texture_size := fun _ => 8, get_format := fun _ => 0,
            get_base_format := fun _ => .code 0, is_paletted_format := fun _ => false,
            get_width := fun _ => 4, get_height := fun _ => 4,
            get_stride_in_bytes := fun _ => 16, bits_per_pixel := fun _ => 32,
            convert_base_texture_format_to_base_color_format := fun _ => some 6,
            color_translate_swizzle := fun _ => none,
            texture_translate_swizzle := fun _ => none,
            is_write_surface_non_linearity_filtering := fun _ => false }
          { retrieve_color_surface_texture_handle := fun _ _ _ _ _ => (0, 0),
            retrieve_depth_stencil_texture_handle := fun _ _ _ => 9 }
          (fun _ _ => true) ⟨false, false⟩ ⟨0, 0, 7, []⟩ 1 ⟨25, 0, .linear⟩).2 := by
  have h := syncTexture_depth_stencil_nearest
    { texture_size := fun _ => 8, get_format := fun _ => 0,
      get_base_format := fun _ => .code 0, is_paletted_format := fun _ => false,
      get_width := fun _ => 4, get_height := fun _ => 4,
      get_stride_in_bytes := fun _ => 16, bits_per_pixel := fun _ => 32,
      convert_base_texture_format_to_base_color_format := fun _ => some 6,
      color_translate_swizzle := fun _ => none,
      texture_translate_swizzle := fun _ => none,
      is_write_surface_non_linearity_filtering := fun _ => false }
    { retrieve_color_surface_texture_handle := fun _ _ _ _ _ => (0, 0),
      retrieve_depth_stencil_texture_handle := fun _ _ _ => 9 }
    (fun _ _ => true) ⟨false, false⟩ ⟨0, 0, 7, []⟩ 1 ⟨25, 0, .linear⟩ 6
    rfl rfl (by decide) rfl rfl (by decide)
  exact h.1

lemma firstMatchPos_of_min {ssurf : Swizzle4} {v : Nat} {j : Nat} (hj4 : j < 4)
    (hj : ssurf.get j = v) (hmin : ∀ k < j, ssurf.get k ≠ v) :
    firstMatchPos ssurf v = some j := by
  interval_cases j
  · simp only [Swizzle4.get] at hj
    norm_num at hj
    simp [firstMatchPos, hj]
  · have h0 := hmin 0 (by omega)
    simp only [Swizzle4.get] at hj h0
    norm_num at hj h0
    simp [firstMatchPos, hj, h0]
  · have h0 := hmin 0 (by omega)
    have h1 := hmin 1 (by omega)
    simp only [Swizzle4.get] at hj h0 h1
    norm_num at hj h0 h1
    simp [firstMatchPos, hj, h0, h1]
  · have h0 := hmin 0 (by omega)
    have h1 := hmin 1 (by omega)
    have h2 := hmin 2 (by omega)
    simp only [Swizzle4.get] at hj h0 h1 h2
    norm_num at hj h0 h1 h2
    simp [firstMatchPos, hj, h0, h1, h2]

/-- Claim C5: swizzle reconciliation for a surface-alias outcome.  Identical
declared/surface swizzles yield the identity mapping; otherwise each output
channel whose declared mapping is a fixed value is passed through unchanged,
and a color-channel mapping is remapped to the host channel index of the
(first) surface-swizzle position holding the same value. -/
theorem reconcileSwizzle_correct (swz ssurf : Swizzle4) (hne : swz ≠ ssurf)
    (i j : Nat) (hi : i < 4) (hj : j < 4) :
    (∀ s : Swizzle4, reconcileSwizzleEvents (some s) s
        = [TexEvent.setSwizzleRGBA identitySwizzle])
    ∧ (swizzleValueFixed (swz.get i) = true →
        TexEvent.setSwizzleChannel (GL_TEXTURE_SWIZZLE_R + i) (swz.get i)
          ∈ reconcileSwizzleEvents (some ssurf) swz)
    ∧ (swizzleValueFixed (swz.get i) = false →
        ssurf.get j = swz.get i → (∀ k < j, ssurf.get k ≠ swz.get i) →
        TexEvent.setSwizzleChannel (GL_TEXTURE_SWIZZLE_R + i) (GL_RED + j)
          ∈ reconcileSwizzleEvents (some ssurf) swz) := by
  refine ⟨?_, ?_, ?_⟩
  · intro s
    simp [reconcileSwizzleEvents]
  · intro hfix
    dsimp only [reconcileSwizzleEvents]
    rw [if_pos hne]
    refine List.mem_flatMap.mpr ⟨i, List.mem_range.mpr hi, ?_⟩
    simp [remapChannelEvents, hfix]
  · intro hfix hmatch hmin
    dsimp only [reconcileSwizzleEvents]
    rw [if_pos hne]
    refine List.mem_flatMap.mpr ⟨i, List.mem_range.mpr hi, ?_⟩
    simp [remapChannelEvents, hfix, firstMatchPos_of_min hj hmatch hmin]

/-- Witness for C5 at a concrete input: a declared GREEN in channel 0 is
remapped to the surface position 1 (host channel G). -/
theorem reconcileSwizzle_correct_witness :
    TexEvent.setSwizzleChannel (GL_TEXTURE_SWIZZLE_R + 0) (GL_RED + 1)
      ∈ reconcileSwizzleEvents (some ⟨GL_RED, GL_GREEN, GL_BLUE, GL_ALPHA⟩)
          ⟨GL_GREEN, GL_RED, GL_ONE, GL_ALPHA⟩ := by
  have h := reconcileSwizzle_correct ⟨GL_GREEN, GL_RED, GL_ONE, GL_ALPHA⟩
    ⟨GL_RED, GL_GREEN, GL_BLUE, GL_ALPHA⟩ (by decide) 0 1 (by decide) (by decide)
  exact h.2.2 (by decide) (by decide)
    (fun k hk => by interval_cases k; decide)

/-! ### Lemmas about the staging loop -/

lemma stageStreamsAux_get (alloc : Nat → Option Nat) (junk : Nat → Nat)
    (ss : List GxmVertexStreamData) :
    ∀ (i0 c k : Nat) (s : GxmVertexStreamData), ss[k]? = some s →
      ((stageStreamsAux alloc junk i0 c ss).1[k]?
        = some (if s.data.isSome then ⟨none, 0⟩ else s))
      ∧ ((stageStreamsAux alloc junk i0 c ss).2.1[k]?
        = some (if s.data.isSome then
              (alloc (c + ((ss.take k).filter (fun t => t.data.isSome)).length)).getD
                (junk (i0 + k))
            else 0)) := by
  induction ss with
  | nil =>
    intro i0 c k s h
    simp at h
  | cons s' rest ih =>
    intro i0 c k s h
    cases k with
    | zero =>
      simp only [List.getElem?_cons_zero, Option.some_inj] at h
      subst h
      rcases hd : s'.data with _ | p
      · simp [stageStreamsAux, hd]
      · rcases ha : alloc c with _ | off <;>
          simp [stageStreamsAux, hd, ha]
    | succ k =>
      simp only [List.getElem?_cons_succ] at h
      rcases hd : s'.data with _ | p
      · have ih' := ih (i0 + 1) c k s h
        have hidx : i0 + 1 + k = i0 + (k + 1) := by omega
        constructor
        · simpa [stageStreamsAux, hd] using ih'.1
        · simpa [stageStreamsAux, hd, List.filter_cons, hidx] using ih'.2
      · have ih' := ih (i0 + 1) (c + 1) k s h
        have hidx : i0 + 1 + k = i0 + (k + 1) := by omega
        have harg : (c + 1) + ((rest.take k).filter (fun t => t.data.isSome)).length
            = c + (((s' :: rest).take (k + 1)).filter (fun t => t.data.isSome)).length := by
          simp [List.take_succ_cons, List.filter_cons, hd]
          omega
        rcases ha : alloc c with _ | off
        · constructor
          · simpa [stageStreamsAux, hd, ha] using ih'.1
          · rw [← hidx, ← harg]
            simpa [stageStreamsAux, hd, ha] using ih'.2
        · constructor
          · simpa [stageStreamsAux, hd, ha] using ih'.1
          · rw [← hidx, ← harg]
            simpa [stageStreamsAux, hd, ha] using ih'.2

lemma stageStreamsAux_allocIdx (alloc : Nat → Option Nat) (junk : Nat → Nat)
    (ss : List GxmVertexStreamData) :
    ∀ (i0 c : Nat),
      (stageStreamsAux alloc junk i0 c ss).2.2.filterMap StageEvent.allocIdx
        = (pendingIndices ss).map (· + i0) := by
  induction ss with
  | nil =>
    intro i0 c
    simp [stageStreamsAux, pendingIndices]
  | cons s rest ih =>
    intro i0 c
    rcases hd : s.data with _ | p
    · have hsome : s.data.isSome = false := by simp [hd]
      simp only [stageStreamsAux, hd, pendingIndices, hsome, Bool.false_eq_true, if_false]
      rw [ih (i0 + 1) c]
      simp [List.map_map, Function.comp_def, Nat.add_assoc, Nat.add_comm,
        Nat.add_left_comm]
    · have hsome : s.data.isSome = true := by simp [hd]
      rcases ha : alloc c with _ | off <;>
        (simp only [stageStreamsAux, hd, ha, pendingIndices, hsome, if_true]
         rw [List.filterMap_cons, List.filterMap_cons]
         simp only [StageEvent.allocIdx]
         rw [ih (i0 + 1) (c + 1)]
         simp [List.map_map, Function.comp_def, Nat.add_assoc, Nat.add_comm,
           Nat.add_left_comm])

lemma stageStreamsAux_index_ge (alloc : Nat → Option Nat) (junk : Nat → Nat)
    (ss : List GxmVertexStreamData) :
    ∀ (i0 c : Nat) (e : StageEvent), e ∈ (stageStreamsAux alloc junk i0 c ss).2.2 →
      i0 ≤ e.streamIndex := by
  induction ss with
  | nil =>
    intro i0 c e h
    simp [stageStreamsAux] at h
  | cons s rest ih =>
    intro i0 c e h
    rcases hd : s.data with _ | p
    · simp only [stageStreamsAux, hd] at h
      exact le_trans (by omega) (ih (i0 + 1) c e h)
    · rcases ha : alloc c with _ | off <;>
        simp only [stageStreamsAux, hd, ha, List.mem_cons] at h <;>
        (rcases h with rfl | rfl | h
         · exact le_refl _
         · exact le_refl _
         · exact le_trans (by omega) (ih (i0 + 1) (c + 1) e h))

lemma stageStreamsAux_sorted (alloc : Nat → Option Nat) (junk : Nat → Nat)
    (ss : List GxmVertexStreamData) :
    ∀ (i0 c : Nat),
      ((stageStreamsAux alloc junk i0 c ss).2.2.map StageEvent.streamIndex).Pairwise (· ≤ ·) := by
  induction ss with
  | nil =>
    intro i0 c
    simp [stageStreamsAux]
  | cons s rest ih =>
    intro i0 c
    have hge : ∀ e ∈ (stageStreamsAux alloc junk (i0 + 1) c rest).2.2,
        i0 ≤ e.streamIndex := fun e he =>
      le_trans (by omega) (stageStreamsAux_index_ge alloc junk rest (i0 + 1) c e he)
    have hge' : ∀ e ∈ (stageStreamsAux alloc junk (i0 + 1) (c + 1) rest).2.2,
        i0 ≤ e.streamIndex := fun e he =>
      le_trans (by omega) (stageStreamsAux_index_ge alloc junk rest (i0 + 1) (c + 1) e he)
    rcases hd : s.data with _ | p
    · simp only [stageStreamsAux, hd]
      exact ih (i0 + 1) c
    · rcases ha : alloc c with _ | off <;>
        (simp only [stageStreamsAux, hd, ha, List.map_cons]
         refine List.Pairwise.cons ?_ (List.Pairwise.cons ?_ ?_)
         · intro b hb
           simp only [List.mem_cons, List.mem_map] at hb
           rcases hb with rfl | ⟨e, he, rfl⟩
           · exact le_refl _
           · exact hge' e he
         · intro b hb
           rcases List.mem_map.mp hb with ⟨e, he, rfl⟩
           exact hge' e he
         · exact ih (i0 + 1) (c + 1))

lemma mem_pendingIndices (ss : List GxmVertexStreamData) :
    ∀ i, i ∈ pendingIndices ss ↔ ∃ s, ss[i]? = some s ∧ s.data.isSome = true := by
  induction ss with
  | nil =>
    intro i
    simp [pendingIndices]
  | cons s rest ih =>
    intro i
    by_cases hs : s.data.isSome = true
    · simp only [pendingIndices, hs, if_true]
      cases i with
      | zero => simp [hs]
      | succ k =>
        simp only [List.mem_cons, List.mem_map, List.getElem?_cons_succ]
        constructor
        · intro h
          rcases h with h | ⟨x, hx, hx'⟩
          · omega
          · have hxk : x = k := by omega
            exact (ih k).mp (by rwa [hxk] at hx)
        · intro h
          exact Or.inr ⟨k, (ih k).mpr h, rfl⟩
    · simp only [pendingIndices, hs, Bool.false_eq_true, if_false]
      cases i with
      | zero =>
        simp only [List.getElem?_cons_zero, List.mem_map]
        constructor
        · intro ⟨x, _, hx'⟩
          omega
        · intro ⟨t, ht, ht'⟩
          rw [Option.some_inj] at ht
          subst ht
          exact absurd ht' hs
      | succ k =>
        simp only [List.mem_map, List.getElem?_cons_succ]
        constructor
        · intro ⟨x, hx, hx'⟩
          have hxk : x = k := by omega
          exact (ih k).mp (by rwa [hxk] at hx)
        · intro h
          exact ⟨k, (ih k).mpr h, rfl⟩

lemma pendingIndices_sorted (ss : List GxmVertexStreamData) :
    (pendingIndices ss).Pairwise (· < ·) := by
  induction ss with
  | nil => simp [pendingIndices]
  | cons s rest ih =>
    by_cases hs : s.data.isSome = true
    · simp only [pendingIndices, hs, if_true]
      refine List.Pairwise.cons ?_ ?_
      · intro b hb
        rcases List.mem_map.mp hb with ⟨x, _, rfl⟩
        omega
      · exact List.pairwise_map.mpr (ih.imp (fun h => by omega))
    · simp only [pendingIndices, hs, Bool.false_eq_true, if_false]
      exact List.pairwise_map.mpr (ih.imp (fun h => by omega))

lemma stageStreamsAux_alloc_event (alloc : Nat → Option Nat) (junk : Nat → Nat)
    (ss : List GxmVertexStreamData) :
    ∀ (i0 c k : Nat) (s : GxmVertexStreamData), ss[k]? = some s → s.data.isSome = true →
      StageEvent.ringAlloc (i0 + k) s.size ∈ (stageStreamsAux alloc junk i0 c ss).2.2 := by
  induction ss with
  | nil =>
    intro i0 c k s h _
    simp at h
  | cons s' rest ih =>
    intro i0 c k s h hp
    cases k with
    | zero =>
      simp only [List.getElem?_cons_zero, Option.some_inj] at h
      subst h
      rcases hd : s'.data with _ | p
      · rw [hd] at hp; simp at hp
      · rcases ha : alloc c with _ | off <;>
          simp [stageStreamsAux, hd, ha]
    | succ k =>
      simp only [List.getElem?_cons_succ] at h
      have hidx : i0 + (k + 1) = (i0 + 1) + k := by omega
      rcases hd : s'.data with _ | p
      · rw [hidx]
        simpa [stageStreamsAux, hd] using ih (i0 + 1) c k s h hp
      · rcases ha : alloc c with _ | off <;>
          (rw [hidx]
           simp only [stageStreamsAux, hd, ha, List.mem_cons]
           exact Or.inr (Or.inr (ih (i0 + 1) (c + 1) k s h hp)))

lemma stageStreamsAux_copy_mem (alloc : Nat → Option Nat) (junk : Nat → Nat)
    (ss : List GxmVertexStreamData) :
    ∀ (i0 c i sz off : Nat),
      StageEvent.ringCopy i sz off ∈ (stageStreamsAux alloc junk i0 c ss).2.2 →
      ∃ k s, i = i0 + k ∧ ss[k]? = some s ∧ s.data.isSome = true ∧ sz = s.size
        ∧ alloc (c + ((ss.take k).filter (fun t => t.data.isSome)).length) = some off := by
  induction ss with
  | nil =>
    intro i0 c i sz off h
    simp [stageStreamsAux] at h
  | cons s' rest ih =>
    intro i0 c i sz off h
    rcases hd : s'.data with _ | p
    · simp only [stageStreamsAux, hd] at h
      rcases ih (i0 + 1) c i sz off h with ⟨k, s, hik, hk, hp, hsz, ha⟩
      refine ⟨k + 1, s, by omega, by simpa using hk, hp, hsz, ?_⟩
      have hsome : s'.data.isSome = false := by simp [hd]
      simpa [List.take_succ_cons, List.filter_cons, hsome] using ha
    · rcases ha : alloc c with _ | off' <;>
        simp only [stageStreamsAux, hd, ha, List.mem_cons] at h
      · rcases h with h | h | h
        · exact absurd h (by simp)
        · exact absurd h (by simp)
        · rcases ih (i0 + 1) (c + 1) i sz off h with ⟨k, s, hik, hk, hp, hsz, ha2⟩
          refine ⟨k + 1, s, by omega, by simpa using hk, hp, hsz, ?_⟩
          have hsome : s'.data.isSome = true := by simp [hd]
          have : c + 1 + ((rest.take k).filter (fun t => t.data.isSome)).length
              = c + (((s' :: rest).take (k + 1)).filter (fun t => t.data.isSome)).length := by
            simp [List.take_succ_cons, List.filter_cons, hsome]
            omega
          rwa [this] at ha2
      · rcases h with h | h | h
        · exact absurd h (by simp)
        · rw [StageEvent.ringCopy.injEq] at h
          rcases h with ⟨rfl, rfl, rfl⟩
          refine ⟨0, s', by omega, by simp, by simp [hd], rfl, by simpa using ha⟩
        · rcases ih (i0 + 1) (c + 1) i sz off h with ⟨k, s, hik, hk, hp, hsz, ha2⟩
          refine ⟨k + 1, s, by omega, by simpa using hk, hp, hsz, ?_⟩
          have hsome : s'.data.isSome = true := by simp [hd]
          have : c + 1 + ((rest.take k).filter (fun t => t.data.isSome)).length
              = c + (((s' :: rest).take (k + 1)).filter (fun t => t.data.isSome)).length := by
            simp [List.take_succ_cons, List.filter_cons, hsome]
            omega
          rwa [this] at ha2

/-! ### Claim theorems: `sync_vertex_streams_and_attributes` -/

lemma stageStreams_allocIdx (alloc : Nat → Option Nat) (junk : Nat → Nat)
    (ss : List GxmVertexStreamData) :
    (stageStreams alloc junk ss).2.2.filterMap StageEvent.allocIdx = pendingIndices ss := by
  rw [stageStreams, stageStreamsAux_allocIdx]
  simp

/-- Claim C3 (amended): the staging loop visits streams in increasing
stream-index order; a ring allocation (and, on success, a copy) happens
exactly for the streams carrying pending data this draw; a stream with no
pending data this draw gets base offset 0 in this draw's `offset_in_buffer`
entry, so its attributes are re-bound relative to offset 0 and are NOT kept
at the offset of a previous draw's allocation. -/
theorem stageStreams_order_and_pending (alloc : Nat → Option Nat) (junk : Nat → Nat)
    (ss : List GxmVertexStreamData) :
    (stageStreams alloc junk ss).2.2.filterMap StageEvent.allocIdx = pendingIndices ss
    ∧ (pendingIndices ss).Pairwise (· < ·)
    ∧ (∀ i, i ∈ pendingIndices ss ↔ ∃ s, ss[i]? = some s ∧ s.data.isSome = true)
    ∧ ((stageStreams alloc junk ss).2.2.map StageEvent.streamIndex).Pairwise (· ≤ ·)
    ∧ (∀ i sz off, StageEvent.ringCopy i sz off ∈ (stageStreams alloc junk ss).2.2 →
        ∃ s, ss[i]? = some s ∧ s.data.isSome = true)
    ∧ (∀ (i : Nat) (s : GxmVertexStreamData), ss[i]? = some s → s.data = none →
        (stageStreams alloc junk ss).2.1[i]? = some 0) := by
  refine ⟨stageStreams_allocIdx alloc junk ss, pendingIndices_sorted ss,
    mem_pendingIndices ss, ?_, ?_, ?_⟩
  · exact stageStreamsAux_sorted alloc junk ss 0 0
  · intro i sz off h
    rcases stageStreamsAux_copy_mem alloc junk ss 0 0 i sz off h with
      ⟨k, s, hik, hk, hp, _, _⟩
    exact ⟨s, by simpa [hik] using hk, hp⟩
  · intro i s hs hnone
    have h := (stageStreamsAux_get alloc junk ss 0 0 i s hs).2
    have : s.data.isSome = false := by simp [hnone]
    simpa [stageStreams, this] using h

/-- Witness for C3 (amended) at a concrete input: three streams of which the
middle one is pending. -/
theorem stageStreams_order_and_pending_witness :
    (stageStreams (fun _ => some 32) (fun _ => 0)
        [⟨none, 0⟩, ⟨some 4, 8⟩, ⟨none, 0⟩]).2.2.filterMap StageEvent.allocIdx
      = pendingIndices [⟨none, 0⟩, ⟨some 4, 8⟩, ⟨none, 0⟩]
    ∧ (stageStreams (fun _ => some 32) (fun _ => 0)
        [⟨none, 0⟩, ⟨some 4, 8⟩, ⟨none, 0⟩]).2.1[2]? = some 0 := by
  have h := stageStreams_order_and_pending (fun _ => some 32) (fun _ => 0)
    [⟨none, 0⟩, ⟨some 4, 8⟩, ⟨none, 0⟩]
  exact ⟨h.1, h.2.2.2.2.2 2 ⟨none, 0⟩ rfl rfl⟩

/-- Counterexample refuting C3 as stated: a stream staged on draw 1 (ring
offset 16) carries no pending data on draw 2; draw 2 re-binds its attribute
at byte offset 0, not at the prior allocation's offset 16. -/
theorem stageStreams_prior_offset_counterexample :
    (AttrEvent.pointer 0 1 0x1406 false false 4 16
        ∈ (sync_vertex_streams_and_attributes ⟨fun _ => 0x1406, fun _ => false, fun _ => false⟩
            (fun _ => some 16) (fun _ => 0) 5
            ⟨[⟨0, 0, .f32, 1, 0⟩], [⟨4, 0⟩], false, 0⟩
            ⟨true, [(0, ⟨0, .f32, false⟩)]⟩ [⟨some 0, 4⟩]).2.2.2)
    ∧ (sync_vertex_streams_and_attributes ⟨fun _ => 0x1406, fun _ => false, fun _ => false⟩
        (fun _ => some 16) (fun _ => 0) 5
        ⟨[⟨0, 0, .f32, 1, 0⟩], [⟨4, 0⟩], false, 0⟩
        ⟨true, [(0, ⟨0, .f32, false⟩)]⟩ [⟨some 0, 4⟩]).2.1 = [⟨none, 0⟩]
    ∧ (AttrEvent.pointer 0 1 0x1406 false false 4 0
        ∈ (sync_vertex_streams_and_attributes ⟨fun _ => 0x1406, fun _ => false, fun _ => false⟩
            (fun _ => some 16) (fun _ => 0) 5
            ⟨[⟨0, 0, .f32, 1, 0⟩], [⟨4, 0⟩], false, 0⟩
            ⟨true, [(0, ⟨0, .f32, false⟩)]⟩ [⟨none, 0⟩]).2.2.2)
    ∧ ¬ (AttrEvent.pointer 0 1 0x1406 false false 4 16
        ∈ (sync_vertex_streams_and_attributes ⟨fun _ => 0x1406, fun _ => false, fun _ => false⟩
            (fun _ => some 16) (fun _ => 0) 5
            ⟨[⟨0, 0, .f32, 1, 0⟩], [⟨4, 0⟩], false, 0⟩
            ⟨true, [(0, ⟨0, .f32, false⟩)]⟩ [⟨none, 0⟩]).2.2.2) := by
  decide

/-- Claim C10: for a pending stream whose ring allocation fails, the loop
still clears the stream's data pointer and size (so the stream is never
retried on a later draw), leaves its `offset_in_buffer` entry unwritten
(equal to the stack array's indeterminate initial value `junk i`), logs the
allocation without performing any copy, while streams with no pending data
get offset 0. -/
theorem stageStreams_alloc_failure (alloc : Nat → Option Nat) (junk : Nat → Nat)
    (ss : List GxmVertexStreamData) (i : Nat) (s : GxmVertexStreamData)
    (hs : ss[i]? = some s) (hp : s.data.isSome = true)
    (hfail : alloc (((ss.take i).filter (fun t => t.data.isSome)).length) = none) :
    (stageStreams alloc junk ss).1[i]? = some ⟨none, 0⟩
    ∧ (stageStreams alloc junk ss).2.1[i]? = some (junk i)
    ∧ StageEvent.ringAlloc i s.size ∈ (stageStreams alloc junk ss).2.2
    ∧ (∀ sz off, StageEvent.ringCopy i sz off ∉ (stageStreams alloc junk ss).2.2)
    ∧ (∀ (alloc2 : Nat → Option Nat) (junk2 : Nat → Nat) (sz : Nat),
        StageEvent.ringAlloc i sz
          ∉ (stageStreams alloc2 junk2 (stageStreams alloc junk ss).1).2.2)
    ∧ (∀ (j : Nat) (t : GxmVertexStreamData), ss[j]? = some t → t.data = none →
        (stageStreams alloc junk ss).2.1[j]? = some 0) := by
  have hget := stageStreamsAux_get alloc junk ss 0 0 i s hs
  refine ⟨?_, ?_, ?_, ?_, ?_, ?_⟩
  · simpa [stageStreams, hp] using hget.1
  · simpa [stageStreams, hp, hfail] using hget.2
  · simpa [stageStreams] using
      stageStreamsAux_alloc_event alloc junk ss 0 0 i s hs hp
  · intro sz off h
    rcases stageStreamsAux_copy_mem alloc junk ss 0 0 i sz off h with
      ⟨k, s2, hik, hk, _, _, ha⟩
    have hki : k = i := by omega
    subst hki
    rw [Nat.zero_add] at ha
    rw [hfail] at ha
    exact Option.noConfusion ha
  · intro alloc2 junk2 sz h
    have hmem : i ∈ ((stageStreams alloc2 junk2 (stageStreams alloc junk ss).1).2.2.filterMap
        StageEvent.allocIdx) :=
      List.mem_filterMap.mpr ⟨StageEvent.ringAlloc i sz, h, rfl⟩
    rw [stageStreams_allocIdx alloc2 junk2 _] at hmem
    rcases (mem_pendingIndices _ i).mp hmem with ⟨t, ht, ht'⟩
    have hstaged : (stageStreams alloc junk ss).1[i]? = some ⟨none, 0⟩ := by
      simpa [stageStreams, hp] using hget.1
    rw [hstaged, Option.some_inj] at ht
    subst ht
    simp at ht'
  · intro j t hj hnone
    have h := (stageStreamsAux_get alloc junk ss 0 0 j t hj).2
    have : t.data.isSome = false := by simp [hnone]
    simpa [stageStreams, this] using h

/-- Witness for C10 at a concrete input: stream 0 pending, allocator failing. -/
theorem stageStreams_alloc_failure_witness :
    (stageStreams (fun _ => none) (fun k => 77 + k) [⟨some 4, 8⟩]).1[0]? = some ⟨none, 0⟩
    ∧ (stageStreams (fun _ => none) (fun k => 77 + k) [⟨some 4, 8⟩]).2.1[0]?
        = some ((fun k => 77 + k) 0)
    ∧ StageEvent.ringAlloc 0 8
        ∈ (stageStreams (fun _ => none) (fun k => 77 + k) [⟨some 4, 8⟩]).2.2 := by
  have h := stageStreams_alloc_failure (fun _ => none) (fun k => 77 + k)
    [⟨some 4, 8⟩] 0 ⟨some 4, 8⟩ rfl rfl rfl
  exact ⟨h.1, h.2.1, h.2.2.1⟩

/-- Extracts the arguments of a pointer-setting call. -/
def AttrEvent.pointerOf : AttrEvent → Option (Nat × Nat × Nat × Bool × Bool × Nat × Nat)
  | .pointer l c t ig nm st off => some (l, c, t, ig, nm, st, off)
  | _ => none

lemma flatMap_triple_pointerOf (loc cc gl : Nat) (ig nm : Bool) (st aes o1 o2 rate : Nat) :
    ∀ l : List Nat,
      (l.flatMap fun i =>
          [AttrEvent.pointer (loc + i) cc gl ig nm st (i * aes + o1 + o2),
            AttrEvent.enable (loc + i), AttrEvent.divisor (loc + i) rate]).filterMap
          AttrEvent.pointerOf
        = l.map fun i => (loc + i, cc, gl, ig, nm, st, i * aes + o1 + o2)
  | [] => by simp
  | i :: rest => by
      simp only [List.flatMap_cons, List.filterMap_append, List.map_cons]
      rw [flatMap_triple_pointerOf loc cc gl ig nm st aes o1 o2 rate rest]
      simp [AttrEvent.pointerOf, List.filterMap_cons]

/-- Claim C4: for a register-formatted attribute the effective component count
is the ceiling of `componentByteSize * declaredComponentCount / 4` (first
conjunct: the code's `(x + 3) / 4` is that ceiling); at most 4 effective
components bind exactly one integer-typed location of that many components;
more than 4 bind `ceil(effective / 4)` consecutive locations, each a 4-wide
integer vector whose byte offsets are 16 apart. -/
theorem regformat_attr_layout (aext : AttrExternals)
    (infos : List (Nat × AttributeInformationModel))
    (streams : List SceGxmVertexStream) (offs : List Nat)
    (attr : SceGxmVertexAttribute) (info : AttributeInformationModel)
    (hinfo : infos.lookup attr.regIndex = some info)
    (hreg : info.regformat = true) :
    (attribute_format_size attr.format * attr.componentCount
        ≤ 4 * ((attribute_format_size attr.format * attr.componentCount + 3) / 4)
      ∧ 4 * ((attribute_format_size attr.format * attr.componentCount + 3) / 4)
        < attribute_format_size attr.format * attr.componentCount + 4)
    ∧ ((attribute_format_size attr.format * attr.componentCount + 3) / 4 ≤ 4 →
        (attributeCalls aext infos streams offs attr).filterMap AttrEvent.pointerOf
          = [(info.location,
              (attribute_format_size attr.format * attr.componentCount + 3) / 4,
              GL_INT, true, false,
              ((streams.get? attr.streamIndex).getD ⟨0, 0⟩).stride,
              attr.offset + (offs.get? attr.streamIndex).getD 0)])
    ∧ (4 < (attribute_format_size attr.format * attr.componentCount + 3) / 4 →
        (attributeCalls aext infos streams offs attr).filterMap AttrEvent.pointerOf
          = (List.range
                (((attribute_format_size attr.format * attr.componentCount + 3) / 4 + 3) / 4)).map
              fun i => (info.location + i, 4, GL_INT, true, false,
                ((streams.get? attr.streamIndex).getD ⟨0, 0⟩).stride,
                i * 16 + attr.offset + (offs.get? attr.streamIndex).getD 0)) := by
  refine ⟨⟨by omega, by omega⟩, ?_, ?_⟩
  · intro hle
    have hnot : ¬ (4 < (attribute_format_size attr.format * attr.componentCount + 3) / 4) := by
      omega
    rw [attributeCalls, hinfo]
    simp only [computeAttrLayout, hreg, if_true, if_neg hnot]
    rw [flatMap_triple_pointerOf, show List.range 1 = [0] from rfl]
    simp
  · intro hgt
    rw [attributeCalls, hinfo]
    simp only [computeAttrLayout, hreg, if_true, if_pos hgt]
    rw [flatMap_triple_pointerOf]
    norm_num

/-- Witness for C4 at a concrete input: the spec's example, a 20-byte
register-formatted attribute (F32 x 5 = 5 effective components) bound as two
consecutive 4-wide integer locations 16 bytes apart. -/
theorem regformat_attr_layout_witness :
    (attributeCalls ⟨fun _ => 0x1406, fun _ => false, fun _ => false⟩
        [(3, ⟨6, .f32, true⟩)] [⟨20, 0⟩] [40]
        ⟨0, 4, .f32, 5, 3⟩).filterMap AttrEvent.pointerOf
      = [(6, 4, GL_INT, true, false, 20, 0 * 16 + 4 + 40),
         (6 + 1, 4, GL_INT, true, false, 20, 1 * 16 + 4 + 40)] := by
  have h := regformat_attr_layout ⟨fun _ => 0x1406, fun _ => false, fun _ => false⟩
    [(3, ⟨6, .f32, true⟩)] [⟨20, 0⟩] [40] ⟨0, 4, .f32, 5, 3⟩ ⟨6, .f32, true⟩ rfl rfl
  have h2 := h.2.2 (by decide)
  rw [h2]
  rfl

/-- Claim C9: an attribute whose register index has no known host location is
skipped entirely (no backend calls); otherwise every bound location
`location + i` (for `i` below the array size) gets a pointer-setting call at
byte offset `i * elementStride + attribute.offset + ring base offset`, an
enable call, and a divisor call with rate 1 iff the stream is
instance-rate. -/
theorem attribute_binding_calls (aext : AttrExternals)
    (infos : List (Nat × AttributeInformationModel))
    (streams : List SceGxmVertexStream) (offs : List Nat)
    (attr : SceGxmVertexAttribute) :
    (infos.lookup attr.regIndex = none →
      attributeCalls aext infos streams offs attr = [])
    ∧ (∀ info, infos.lookup attr.regIndex = some info →
        ∀ i, i < (computeAttrLayout aext attr info).array_size →
          AttrEvent.pointer (info.location + i)
              (computeAttrLayout aext attr info).component_count
              (computeAttrLayout aext attr info).gl_type
              ((computeAttrLayout aext attr info).upload_integral
                || (attr.format == SceGxmAttributeFormat.untyped))
              (if (computeAttrLayout aext attr info).upload_integral
                  || (attr.format == SceGxmAttributeFormat.untyped)
                then false else aext.attribute_format_normalised attr.format)
              ((streams.get? attr.streamIndex).getD ⟨0, 0⟩).stride
              (i * (computeAttrLayout aext attr info).array_element_size
                + attr.offset + (offs.get? attr.streamIndex).getD 0)
            ∈ attributeCalls aext infos streams offs attr
          ∧ AttrEvent.enable (info.location + i)
            ∈ attributeCalls aext infos streams offs attr
          ∧ AttrEvent.divisor (info.location + i)
              (if aext.is_stream_instancing
                  ((streams.get? attr.streamIndex).getD ⟨0, 0⟩).indexSource
                then 1 else 0)
            ∈ attributeCalls aext infos streams offs attr) := by
  constructor
  · intro h
    rw [attributeCalls, h]
  · intro info hinfo i hi
    refine ⟨?_, ?_, ?_⟩ <;>
      (rw [attributeCalls, hinfo]
       refine List.mem_flatMap.mpr ⟨i, List.mem_range.mpr hi, ?_⟩
       simp)

/-- Witness for C9 at a concrete input: a natively-typed U8 attribute on an
instance-rate stream, bound at location 2 with divisor 1. -/
theorem attribute_binding_calls_witness :
    AttrEvent.pointer (2 + 0) 3 0x1401 true false 12 (0 * 0 + 8 + 64)
      ∈ attributeCalls ⟨fun _ => 0x1401, fun _ => false, fun _ => true⟩
          [(5, ⟨2, .u8, false⟩)] [⟨12, 3⟩] [64] ⟨0, 8, .u8, 3, 5⟩
    ∧ AttrEvent.enable (2 + 0)
      ∈ attributeCalls ⟨fun _ => 0x1401, fun _ => false, fun _ => true⟩
          [(5, ⟨2, .u8, false⟩)] [⟨12, 3⟩] [64] ⟨0, 8, .u8, 3, 5⟩
    ∧ AttrEvent.divisor (2 + 0) 1
      ∈ attributeCalls ⟨fun _ => 0x1401, fun _ => false, fun _ => true⟩
          [(5, ⟨2, .u8, false⟩)] [⟨12, 3⟩] [64] ⟨0, 8, .u8, 3, 5⟩ := by
  have h := (attribute_binding_calls ⟨fun _ => 0x1401, fun _ => false, fun _ => true⟩
      [(5, ⟨2, .u8, false⟩)] [⟨12, 3⟩] [64] ⟨0, 8, .u8, 3, 5⟩).2
      ⟨2, .u8, false⟩ rfl 0 (by decide)
  exact ⟨h.1, h.2.1, h.2.2⟩

end Vita3KGLSync
